import Mathlib

/-!
Verification of the eleel Engine-API multiplexer against its specification.

Shallow embedding of the response-caching state machine of `eleel`:

* `src/base_fee.rs`   — EIP-1559 base fee computation,
* `src/fcu.rs`        — forkchoiceUpdated handlers and fcU cache,
* `src/new_payload.rs`— newPayload handlers, recency gate, newPayload cache,
* `src/payload_builder.rs` — dummy payload builder state machine,
* `src/main.rs`       — JSON-RPC method routing,
* `src/types.rs`      — JSON-RPC error codes and response shapes.

Machine integers (`u64`, `U256`) are modelled as `Nat`; the Rust arithmetic in
scope is checked (panics rather than wraps on overflow), so theorems about the
256-bit computation carry explicit hypotheses confining them to the domain
where every intermediate value is representable.  Rust `saturating_sub` on
unsigned integers coincides with `Nat` subtraction.  Block hashes are
abstracted as `Nat`; the cryptographic hash routines are external library
collaborators and enter the model only as opaque function arguments or
precomputed verdicts.  Bounded LRU caches are modelled as association lists
without eviction (reads refresh recency but never change contents, so
contents-level claims are unaffected); `LruCache::get`/`contains`/`put`
become association-list lookup, membership and head insertion.  Handlers that
poll a concurrently updated cache are modelled against a fixed cache
snapshot, reporting the number of 50 ms sleeps they would perform.
-/

namespace Eleel

/-! ## Data model (`src/types.rs`) -/

/-- The five payload status tags of `JsonPayloadStatusV1Status`. -/
inductive PayloadStatusTag where
  | valid
  | invalid
  | invalidBlockHash
  | accepted
  | syncing
deriving DecidableEq, Repr

/-- `JsonPayloadStatusV1`: status tag plus optional latest valid hash and
optional validation error string. -/
structure PayloadStatusV1 where
  status : PayloadStatusTag
  latestValidHash : Option Nat
  validationError : Option String
deriving DecidableEq, Repr

/-- `Multiplexer::is_definite` (src/fcu.rs lines 253-259): a status is
definite when it is Valid, Invalid or InvalidBlockHash, and indefinite when
it is Accepted or Syncing. -/
def is_definite (s : PayloadStatusV1) : Bool :=
  match s.status with
  | .valid | .invalid | .invalidBlockHash => true
  | .accepted | .syncing => false

/-- `JsonForkchoiceStateV1` (src/types.rs lines 105-111): the triple of head,
safe and finalized execution block hashes, with structural equality. -/
structure ForkchoiceStateV1 where
  head_block_hash : Nat
  safe_block_hash : Nat
  finalized_block_hash : Nat
deriving DecidableEq, Repr

/-- JSON-RPC error codes of `ErrorCode` (src/types.rs lines 50-63). -/
inductive ErrorCode where
  | ParseError
  | InvalidRequest
  | MethodNotFound
  | InvalidParams
  | InternalError
  | ServerError
  | UnknownPayload
  | InvalidForkChoiceState
  | InvalidPayloadAttributes
  | TooLargeRequest
deriving DecidableEq, Repr

/-- The `repr(i32)` discriminants of `ErrorCode` (src/types.rs lines 50-63). -/
def ErrorCode.toInt : ErrorCode → Int
  | .ParseError => -32700
  | .InvalidRequest => -32600
  | .MethodNotFound => -32601
  | .InvalidParams => -32602
  | .InternalError => -32603
  | .ServerError => -32000
  | .UnknownPayload => -38001
  | .InvalidForkChoiceState => -38002
  | .InvalidPayloadAttributes => -38003
  | .TooLargeRequest => -38004

/-- Outcome of a handler: a JSON-RPC result carrying a payload status, or a
JSON-RPC error with its code and message. -/
inductive JsonRpcOutcome where
  | ok (status : PayloadStatusV1)
  | err (code : ErrorCode) (message : String)
deriving DecidableEq, Repr

/-- The synthetic Syncing status (src/new_payload.rs lines 159-163 and
src/fcu.rs lines 177-181): Syncing with no latest valid hash and no
validation error. -/
def syncing_status : PayloadStatusV1 :=
  { status := .syncing, latestValidHash := none, validationError := none }

/-- The error message mentions a hash when that hash's rendering occurs in
the message text. -/
def message_mentions (message : String) (h : Nat) : Prop :=
  (toString h).data <:+: message.data

/-! ## Association-list model of `lru::LruCache` contents -/

/-- Contents-level model of `LruCache::get`: value stored under the key, if
any.  Recency refreshing does not change contents and is not modelled. -/
def lru_get {κ υ : Type} [DecidableEq κ] (m : List (κ × υ)) (k : κ) : Option υ :=
  (m.find? (fun e => decide (e.1 = k))).map (fun e => e.2)

/-! ## EIP-1559 base fee (`src/base_fee.rs`) -/

def ELASTICITY_MULTIPLIER : Nat := 2

def BASE_FEE_MAX_CHANGE_DENOMINATOR : Nat := 8

/-- `expected_base_fee_per_gas` (src/base_fee.rs lines 10-35).  `Uint256`
and `u64` values become `Nat`; `saturating_sub` is `Nat` subtraction and
`U256` division is `Nat` (floor) division. -/
def expected_base_fee_per_gas (parent_base_fee_per_gas parent_gas_used parent_gas_limit : Nat) :
    Nat :=
  let parent_gas_target := parent_gas_limit / ELASTICITY_MULTIPLIER
  if parent_gas_used = parent_gas_target then
    parent_base_fee_per_gas
  else if parent_gas_used > parent_gas_target then
    let gas_used_delta := parent_gas_used - parent_gas_target
    let base_fee_per_gas_delta :=
      max (parent_base_fee_per_gas * gas_used_delta / parent_gas_target
            / BASE_FEE_MAX_CHANGE_DENOMINATOR) 1
    parent_base_fee_per_gas + base_fee_per_gas_delta
  else
    let gas_used_delta := parent_gas_target - parent_gas_used
    let base_fee_per_gas_delta :=
      parent_base_fee_per_gas * gas_used_delta / parent_gas_target
        / BASE_FEE_MAX_CHANGE_DENOMINATOR
    parent_base_fee_per_gas - base_fee_per_gas_delta

/-! ## Controller fcU cache update (`src/fcu.rs`) -/

/-- Effect of one controller `handle_controller_fcu` call on the cache entry
of the queried `ForkchoiceState` key (src/fcu.rs lines 49-111, restricted to
that key).  The input `ee` is `none` when the call did not reach the cache
update (a definite cache hit at line 49 short-circuits the engine call, and
a parse failure or engine error returns early): those paths leave the entry
as it was.  Otherwise `ee` is the payload status returned by the execution
engine and lines 63-79 apply: a missing entry is inserted, an indefinite
entry is overwritten, and a definite entry is kept, the update being logged
as redundant. -/
def controller_fcu_step (entry : Option PayloadStatusV1) (ee : Option PayloadStatusV1) :
    Option PayloadStatusV1 :=
  match ee with
  | none => entry
  | some new =>
    match entry with
    | some existing => if is_definite existing then some existing else some new
    | none => some new

/-- The cache entry of a fixed key after a sequence of controller fcU calls. -/
def controller_fcu_run (init : Option PayloadStatusV1) (calls : List (Option PayloadStatusV1)) :
    Option PayloadStatusV1 :=
  calls.foldl controller_fcu_step init

/-! ## Engine-API method names (`execution_layer::http` constants) -/

def ENGINE_FORKCHOICE_UPDATED_V1 : String := "engine_forkchoiceUpdatedV1"

def ENGINE_FORKCHOICE_UPDATED_V2 : String := "engine_forkchoiceUpdatedV2"

def ENGINE_FORKCHOICE_UPDATED_V3 : String := "engine_forkchoiceUpdatedV3"

def ENGINE_NEW_PAYLOAD_V1 : String := "engine_newPayloadV1"

def ENGINE_NEW_PAYLOAD_V2 : String := "engine_newPayloadV2"

def ENGINE_NEW_PAYLOAD_V3 : String := "engine_newPayloadV3"

def ENGINE_NEW_PAYLOAD_V4 : String := "engine_newPayloadV4"

def ENGINE_GET_PAYLOAD_V1 : String := "engine_getPayloadV1"

def ENGINE_GET_PAYLOAD_V2 : String := "engine_getPayloadV2"

def ENGINE_GET_PAYLOAD_V3 : String := "engine_getPayloadV3"

def ENGINE_EXCHANGE_CAPABILITIES : String := "engine_exchangeCapabilities"

def ENGINE_GET_PAYLOAD_BODIES_BY_HASH_V1 : String := "engine_getPayloadBodiesByHashV1"

def ENGINE_GET_PAYLOAD_BODIES_BY_RANGE_V1 : String := "engine_getPayloadBodiesByRangeV1"

def ETH_SYNCING : String := "eth_syncing"

/-- The `JsonPayloadAttributes` variants a controller fcU may parse into. -/
inductive PayloadAttributesVersion where
  | V1
  | V2
  | V3
deriving DecidableEq, Repr

/-- Version of payload attributes parsed by `handle_controller_fcu`
(src/fcu.rs lines 25-47): requests whose method equals
`ENGINE_FORKCHOICE_UPDATED_V2` parse the optional second parameter as V2
attributes, and every other method parses it as V3 attributes. -/
def controller_fcu_attributes_version (method : String) : PayloadAttributesVersion :=
  if method = ENGINE_FORKCHOICE_UPDATED_V2 then .V2 else .V3

/-! ## newPayload cache and client handler (`src/new_payload.rs`) -/

/-- `NewPayloadCacheEntry` (src/multiplexer.rs lines 34-37): cached payload
status together with the payload's execution block number. -/
structure NewPayloadCacheEntry where
  status : PayloadStatusV1
  block_number : Nat
deriving DecidableEq, Repr

/-- The newPayload cache: block hash to entry (contents of the LRU). -/
abbrev NewPayloadCache := List (Nat × NewPayloadCacheEntry)

/-- `Multiplexer::get_cached_payload_status` (src/new_payload.rs lines
322-334): status under the block hash, treating an indefinite entry as a
miss when `definite_only` is set. -/
def get_cached_payload_status (cache : NewPayloadCache) (execution_block_hash : Nat)
    (definite_only : Bool) : Option PayloadStatusV1 :=
  match lru_get cache execution_block_hash with
  | some existing =>
    if !definite_only || is_definite existing.status then some existing.status else none
  | none => none

/-- `Multiplexer::highest_cached_payload_number` (src/new_payload.rs lines
339-346): maximum `block_number` of any cached entry, or 0 if none. -/
def highest_cached_payload_number (cache : NewPayloadCache) : Nat :=
  ((cache.map (fun e => e.2.block_number)).max?).getD 0

/-- `Multiplexer::is_recent_payload` (src/new_payload.rs lines 349-355):
`block_number >= highest_cached_payload_number.saturating_sub(cutoff)`,
where `cutoff` is `config.new_payload_wait_cutoff`. -/
def is_recent_payload (cache : NewPayloadCache) (cutoff : Nat) (block_number : Nat) : Bool :=
  decide (highest_cached_payload_number cache - cutoff ≤ block_number)

/-- A client newPayload request after decoding, with the two external
verification routines (`verify_payload_block_hash`,
`verify_versioned_hashes` — execution-layer library code outside this
repository) abstracted by the recomputed hash and a versioned-hash verdict:
the block-hash check passes exactly when `computed_block_hash` equals the
payload's `block_hash` field. -/
structure NewPayloadRequestModel where
  block_hash : Nat
  block_number : Nat
  computed_block_hash : Nat
  versioned_hashes_ok : Bool
deriving DecidableEq, Repr

/-- Result of the client `handle_new_payload`: the outcome, the number of
50 ms poll sleeps performed, and the newPayload cache afterwards (the client
handler never writes to the cache). -/
structure NewPayloadResult where
  outcome : JsonRpcOutcome
  sleeps : Nat
  cache_after : NewPayloadCache
deriving Repr

/-- Tail of the client `handle_new_payload` after the wait loop
(src/new_payload.rs lines 130-166): take any cached status (indefinite
allowed); on a miss, verify the versioned hashes — failure is an
InvalidRequest error — and otherwise synthesise a Syncing response. -/
def new_payload_fallback (cache : NewPayloadCache) (r : NewPayloadRequestModel)
    (sleeps : Nat) : NewPayloadResult :=
  match get_cached_payload_status cache r.block_hash false with
  | some status => { outcome := .ok status, sleeps := sleeps, cache_after := cache }
  | none =>
    if !r.versioned_hashes_ok then
      { outcome := .err .InvalidRequest "incorrect versioned hashes",
        sleeps := sleeps, cache_after := cache }
    else
      { outcome := .ok syncing_status, sleeps := sleeps, cache_after := cache }

/-- Client `handle_new_payload` (src/new_payload.rs lines 82-167) against a
fixed cache snapshot.  The block hash is verified before any cache access;
on mismatch the handler returns InvalidRequest with the message
`incorrect block hash <hash>` built from the payload's `block_hash` field.
For a recent payload the handler polls the cache for a definite status,
sleeping 50 ms between polls for up to `wait_millis` (with an unchanging
cache this is a hit with no sleep, or `wait_millis / 50` sleeps and then the
fallback); a non-recent payload goes to the fallback with no sleeping. -/
def handle_new_payload (cache : NewPayloadCache) (cutoff wait_millis : Nat)
    (r : NewPayloadRequestModel) : NewPayloadResult :=
  if r.computed_block_hash ≠ r.block_hash then
    { outcome := .err .InvalidRequest ("incorrect block hash " ++ toString r.block_hash),
      sleeps := 0, cache_after := cache }
  else
    let is_recent := is_recent_payload cache cutoff r.block_number
    if is_recent then
      match get_cached_payload_status cache r.block_hash true with
      | some status => { outcome := .ok status, sleeps := 0, cache_after := cache }
      | none => new_payload_fallback cache r (wait_millis / 50)
    else
      new_payload_fallback cache r 0

/-! ## fcU cache lookup and client fcU handler (`src/fcu.rs`, `src/config.rs`) -/

/-- `FcuMatching` (src/config.rs): the fcU cache matching policy. -/
inductive FcuMatching where
  | Exact
  | Loose
  | HeadOnly
deriving DecidableEq, Repr

/-- The caches consulted by `get_cached_fcu` (fields of `Multiplexer`,
src/multiplexer.rs lines 22-25): the fcU cache and the justified/finalized
block-hash side caches (sets of hashes). -/
structure FcuCaches where
  fcu_cache : List (ForkchoiceStateV1 × PayloadStatusV1)
  justified_block_cache : List Nat
  finalized_block_cache : List Nat
deriving Repr

/-- The first cached entry whose `head_block_hash` matches, in iteration
order (the `find_map` of src/fcu.rs lines 224-227). -/
def first_head_match (cache : List (ForkchoiceStateV1 × PayloadStatusV1)) (head : Nat) :
    Option PayloadStatusV1 :=
  (cache.find? (fun e => decide (e.1.head_block_hash = head))).map (fun e => e.2)

/-- `LruCache::contains` on the hash side caches. -/
def side_cache_contains (cache : List Nat) (h : Nat) : Bool :=
  decide (h ∈ cache)

/-- `Multiplexer::get_cached_fcu` (src/fcu.rs lines 214-251).  Exact
matching looks the full triple up; Loose and HeadOnly take the first entry
whose head matches.  Loose additionally requires the queried safe hash to be
in the justified side cache and the queried finalized hash to be in the
finalized side cache.  With `definite_only` set, an indefinite hit is
discarded. -/
def get_cached_fcu (matching : FcuMatching) (c : FcuCaches) (fcu : ForkchoiceStateV1)
    (definite_only : Bool) : Option PayloadStatusV1 :=
  match (match matching with
         | .Exact => lru_get c.fcu_cache fcu
         | .Loose | .HeadOnly => first_head_match c.fcu_cache fcu.head_block_hash) with
  | none => none
  | some existing_status =>
    let just_and_fin_ok :=
      match matching with
      | .Exact | .HeadOnly => true
      | .Loose =>
        side_cache_contains c.justified_block_cache fcu.safe_block_hash &&
          side_cache_contains c.finalized_block_cache fcu.finalized_block_hash
    let definite_enough := !definite_only || is_definite existing_status
    if just_and_fin_ok && definite_enough then some existing_status else none

/-- `PayloadAttributes` as keyed by the payload builder (flattening the
V1/V2/V3 enum of the consensus library): equality includes every field.
`withdrawals` and `parent_beacon_block_root` are `none` for the versions
whose accessors return `Err` in Rust. -/
structure PayloadAttributesModel where
  timestamp : Nat
  prev_randao : Nat
  suggested_fee_recipient : Nat
  withdrawals : Option (List Nat)
  parent_beacon_block_root : Option Nat
deriving DecidableEq, Repr

/-- The attributes-to-payload-id map of the builder
(`PayloadBuilder.payload_attributes`, src/payload_builder.rs line 39). -/
abbrev AttributesMap := List ((Nat × PayloadAttributesModel) × Nat)

/-- `Multiplexer::get_existing_payload_id` (src/payload_builder.rs lines
198-210): exact lookup of `(parent_hash, attributes)`; a miss is an error,
reported here as `none`. -/
def get_existing_payload_id (attrs_map : AttributesMap) (parent_hash : Nat)
    (payload_attributes : PayloadAttributesModel) : Option Nat :=
  lru_get attrs_map (parent_hash, payload_attributes)

/-- Response of a forkchoiceUpdated handler
(`JsonForkchoiceUpdatedV1Response`): payload status and optional payload id. -/
structure FcuResponse where
  payload_status : PayloadStatusV1
  payload_id : Option Nat
deriving DecidableEq, Repr

/-- Client `handle_fcu` (src/fcu.rs lines 144-209) against a fixed cache
snapshot: poll for a definite cached status (for an unchanging cache one
lookup decides the loop), fall back to any cached status, and synthesise an
uncached Syncing response on a miss.  If the client sent payload attributes,
an existing payload id is attached when `get_existing_payload_id` finds one;
a miss is logged and the id omitted without failing the request. -/
def handle_fcu (matching : FcuMatching) (c : FcuCaches) (attrs_map : AttributesMap)
    (fcu : ForkchoiceStateV1) (opt_payload_attributes : Option PayloadAttributesModel) :
    FcuResponse :=
  let payload_status :=
    match get_cached_fcu matching c fcu true with
    | some definite_status => definite_status
    | none =>
      match get_cached_fcu matching c fcu false with
      | some payload_status => payload_status
      | none => syncing_status
  let payload_id :=
    match opt_payload_attributes with
    | some payload_attributes =>
      get_existing_payload_id attrs_map fcu.head_block_hash payload_attributes
    | none => none
  { payload_status := payload_status, payload_id := payload_id }

/-! ## JSON-RPC dispatcher (`src/main.rs`) -/

/-- The handlers a request can be routed to (the arms of the matches in
src/main.rs lines 145-167 and 192-216). -/
inductive Handler where
  | handle_fcu
  | handle_controller_fcu
  | handle_new_payload
  | handle_controller_new_payload
  | handle_syncing
  | handle_chain_id
  | handle_engine_capabilities
  | proxy_directly
  | handle_get_payload
  | unsupported_method
deriving DecidableEq, Repr

/-- `process_client_request` routing (src/main.rs lines 141-167): method
name to handler on the client endpoint.  Note that only newPayload V1-V3
appear; `engine_newPayloadV4` is not in this table. -/
def process_client_request_route (method : String) : Handler :=
  if method = ENGINE_FORKCHOICE_UPDATED_V1 ∨ method = ENGINE_FORKCHOICE_UPDATED_V2 ∨
      method = ENGINE_FORKCHOICE_UPDATED_V3 then .handle_fcu
  else if method = ENGINE_NEW_PAYLOAD_V1 ∨ method = ENGINE_NEW_PAYLOAD_V2 ∨
      method = ENGINE_NEW_PAYLOAD_V3 then .handle_new_payload
  else if method = ETH_SYNCING then .handle_syncing
  else if method = "eth_chainId" then .handle_chain_id
  else if method = ENGINE_EXCHANGE_CAPABILITIES then .handle_engine_capabilities
  else if method = "eth_getBlockByNumber" ∨ method = "eth_getBlockByHash" ∨
      method = "eth_getLogs" ∨ method = "eth_call" ∨ method = "eth_blockNumber" ∨
      method = ENGINE_GET_PAYLOAD_BODIES_BY_HASH_V1 ∨
      method = ENGINE_GET_PAYLOAD_BODIES_BY_RANGE_V1 then .proxy_directly
  else if method = ENGINE_GET_PAYLOAD_V1 ∨ method = ENGINE_GET_PAYLOAD_V2 ∨
      method = ENGINE_GET_PAYLOAD_V3 then .handle_get_payload
  else .unsupported_method

/-- `handle_controller_json_rpc` routing (src/main.rs lines 192-213): the
same table with the fcU and newPayload arms flipped to their controller
variants. -/
def handle_controller_json_rpc_route (method : String) : Handler :=
  if method = ENGINE_FORKCHOICE_UPDATED_V1 ∨ method = ENGINE_FORKCHOICE_UPDATED_V2 ∨
      method = ENGINE_FORKCHOICE_UPDATED_V3 then .handle_controller_fcu
  else if method = ENGINE_NEW_PAYLOAD_V1 ∨ method = ENGINE_NEW_PAYLOAD_V2 ∨
      method = ENGINE_NEW_PAYLOAD_V3 then .handle_controller_new_payload
  else if method = ETH_SYNCING then .handle_syncing
  else if method = "eth_chainId" then .handle_chain_id
  else if method = ENGINE_EXCHANGE_CAPABILITIES then .handle_engine_capabilities
  else if method = "eth_getBlockByNumber" ∨ method = "eth_getBlockByHash" ∨
      method = "eth_getLogs" ∨ method = "eth_call" ∨ method = "eth_blockNumber" ∨
      method = ENGINE_GET_PAYLOAD_BODIES_BY_HASH_V1 ∨
      method = ENGINE_GET_PAYLOAD_BODIES_BY_RANGE_V1 then .proxy_directly
  else if method = ENGINE_GET_PAYLOAD_V1 ∨ method = ENGINE_GET_PAYLOAD_V2 ∨
      method = ENGINE_GET_PAYLOAD_V3 then .handle_get_payload
  else .unsupported_method

/-- All method names appearing in the routing tables of src/main.rs. -/
def routed_methods : List String :=
  [ENGINE_FORKCHOICE_UPDATED_V1, ENGINE_FORKCHOICE_UPDATED_V2, ENGINE_FORKCHOICE_UPDATED_V3,
   ENGINE_NEW_PAYLOAD_V1, ENGINE_NEW_PAYLOAD_V2, ENGINE_NEW_PAYLOAD_V3,
   ETH_SYNCING, "eth_chainId", ENGINE_EXCHANGE_CAPABILITIES,
   "eth_getBlockByNumber", "eth_getBlockByHash", "eth_getLogs", "eth_call", "eth_blockNumber",
   ENGINE_GET_PAYLOAD_BODIES_BY_HASH_V1, ENGINE_GET_PAYLOAD_BODIES_BY_RANGE_V1,
   ENGINE_GET_PAYLOAD_V1, ENGINE_GET_PAYLOAD_V2, ENGINE_GET_PAYLOAD_V3]

/-- `ErrorResponse::unsupported_method` (src/types.rs lines 157-166): a
MethodNotFound error naming the method. -/
def unsupported_method_error (method : String) : ErrorCode × String :=
  (.MethodNotFound, "method `" ++ method ++ "` not supported")

/-! ## Payload builder (`src/payload_builder.rs`) -/

/-- The consensus fork names relevant to the builder. -/
inductive ForkName where
  | Base
  | Altair
  | Bellatrix
  | Capella
  | Deneb
  | Electra
deriving DecidableEq, Repr

/-- `PayloadInfo` (src/payload_builder.rs lines 22-35): data about a
canonical payload used when building a child payload. -/
structure PayloadInfo where
  block_number : Nat
  state_root : Nat
  base_fee_per_gas : Nat
  gas_used : Nat
  gas_limit : Nat
deriving DecidableEq, Repr

/-- A fork-tagged `ExecutionPayload` as built by the dummy payload builder.
Post-Capella-only fields are `Option`s that are `none` below their fork. -/
structure ExecutionPayloadModel where
  fork : ForkName
  parent_hash : Nat
  fee_recipient : Nat
  state_root : Nat
  receipts_root : Nat
  logs_bloom : Nat
  prev_randao : Nat
  block_number : Nat
  gas_limit : Nat
  gas_used : Nat
  timestamp : Nat
  extra_data : List Nat
  base_fee_per_gas : Nat
  block_hash : Nat
  transactions : List (List Nat)
  withdrawals : Option (List Nat)
  blob_gas_used : Option Nat
  excess_blob_gas : Option Nat
deriving DecidableEq, Repr

/-- `PayloadBuilder` state (src/payload_builder.rs lines 37-46): the id
counter, the attributes-to-id map, the canonical payload info map, the
payload store and the configured extra data.  Payload ids are the `u64`
counter values (their 8-byte big-endian serialisation is injective and not
modelled). -/
structure PayloadBuilderState where
  next_payload_id : Nat
  payload_attributes : AttributesMap
  payload_info : List (Nat × PayloadInfo)
  payloads : List (Nat × ExecutionPayloadModel)
  extra_data : List Nat
deriving Repr

/-- External collaborators of the builder: the genesis time and slot length
(from the chain spec), the fork schedule (`ChainSpec::fork_name_at_slot`)
and the execution block hash routine
(`execution_layer::calculate_execution_block_hash`), all library code
outside this repository. -/
structure BuilderEnv where
  genesis_time : Nat
  seconds_per_slot : Nat
  fork_at_slot : Nat → ForkName
  compute_block_hash : ExecutionPayloadModel → Option Nat → Nat

/-- `Multiplexer::timestamp_to_slot` (src/new_payload.rs lines 315-320):
`(timestamp - genesis_time) / seconds_per_slot` with checked subtraction and
checked division. -/
def timestamp_to_slot (env : BuilderEnv) (timestamp : Nat) : Option Nat :=
  if timestamp < env.genesis_time then none
  else if env.seconds_per_slot = 0 then none
  else some ((timestamp - env.genesis_time) / env.seconds_per_slot)

/-- `keccak_hash::KECCAK_EMPTY_LIST_RLP`: the receipts root of an empty
block. -/
def KECCAK_EMPTY_LIST_RLP : Nat :=
  0x1dcc4de8dec75d7aab85b567b6ccd41ad312451b948a7413f0a142fd40d49347

/-- The ways `register_attributes` can fail (src/payload_builder.rs lines
66-196): invalid timestamp, unknown parent, missing withdrawals
post-Capella, pre-Bellatrix fork, and the unimplemented Electra branch
(`todo!()` in the source, which panics before any state change). -/
inductive BuildError where
  | invalidTimestamp
  | unknownParent
  | noWithdrawals
  | invalidFork
  | electraTodo
deriving DecidableEq, Repr

/-- The fork-dependent dummy payload construction of `register_attributes`
(src/payload_builder.rs lines 94-185), before the block hash is written:
empty transactions, the parent's state root, gas limit 30,000,000, gas used
0, the EIP-1559 base fee derived from the parent, the empty-list receipts
root, zero logs bloom, and the configured extra data.  Capella and Deneb
require the attributes' withdrawals; Deneb adds zero blob gas fields. -/
def dummy_payload (fork_name : ForkName) (parent_hash : Nat)
    (payload_attributes : PayloadAttributesModel) (parent_info : PayloadInfo)
    (extra_data : List Nat) : Except BuildError ExecutionPayloadModel :=
  let block_number := parent_info.block_number + 1
  let base_fee_per_gas := expected_base_fee_per_gas parent_info.base_fee_per_gas
      parent_info.gas_used parent_info.gas_limit
  let common : Option (List Nat) → Option Nat → Option Nat → ExecutionPayloadModel :=
    fun w bg eg =>
      { fork := fork_name
        parent_hash := parent_hash
        fee_recipient := payload_attributes.suggested_fee_recipient
        state_root := parent_info.state_root
        receipts_root := KECCAK_EMPTY_LIST_RLP
        logs_bloom := 0
        prev_randao := payload_attributes.prev_randao
        block_number := block_number
        gas_limit := 30000000
        gas_used := 0
        timestamp := payload_attributes.timestamp
        extra_data := extra_data
        base_fee_per_gas := base_fee_per_gas
        block_hash := 0
        transactions := []
        withdrawals := w
        blob_gas_used := bg
        excess_blob_gas := eg }
  match fork_name with
  | .Bellatrix => .ok (common none none none)
  | .Capella =>
    match payload_attributes.withdrawals with
    | none => .error .noWithdrawals
    | some w => .ok (common (some w) none none)
  | .Deneb =>
    match payload_attributes.withdrawals with
    | none => .error .noWithdrawals
    | some w => .ok (common (some w) (some 0) (some 0))
  | .Electra => .error .electraTodo
  | .Base | .Altair => .error .invalidFork

/-- `Multiplexer::register_attributes` (src/payload_builder.rs lines
66-196): derive the slot from the attributes' timestamp; return the
existing id if the `(parent_hash, attributes)` key is already mapped; look
the parent up in the canonical info map; build the dummy payload for the
fork at that slot, write its computed block hash, and record the new id in
both maps while bumping the counter. -/
def register_attributes (env : BuilderEnv) (s : PayloadBuilderState) (parent_hash : Nat)
    (payload_attributes : PayloadAttributesModel) :
    Except BuildError Nat × PayloadBuilderState :=
  match timestamp_to_slot env payload_attributes.timestamp with
  | none => (.error .invalidTimestamp, s)
  | some slot =>
    match lru_get s.payload_attributes (parent_hash, payload_attributes) with
    | some id => (.ok id, s)
    | none =>
      match lru_get s.payload_info parent_hash with
      | none => (.error .unknownParent, s)
      | some parent_info =>
        match dummy_payload (env.fork_at_slot slot) parent_hash payload_attributes
            parent_info s.extra_data with
        | .error e => (.error e, s)
        | .ok payload =>
          (.ok s.next_payload_id,
            { s with
              payload_attributes :=
                ((parent_hash, payload_attributes), s.next_payload_id) :: s.payload_attributes
              payloads :=
                (s.next_payload_id,
                  { payload with
                    block_hash :=
                      env.compute_block_hash payload
                        payload_attributes.parent_beacon_block_root }) :: s.payloads
              next_payload_id := s.next_payload_id + 1 })

/-- The `PayloadInfo` record `register_canonical_payload` stores for a
payload (src/payload_builder.rs lines 228-234). -/
def payload_info_of (payload : ExecutionPayloadModel) : PayloadInfo :=
  { block_number := payload.block_number
    state_root := payload.state_root
    base_fee_per_gas := payload.base_fee_per_gas
    gas_used := payload.gas_used
    gas_limit := payload.gas_limit }

/-- `Multiplexer::register_canonical_payload` (src/payload_builder.rs lines
213-235): a no-op for Invalid or InvalidBlockHash statuses; otherwise
`get_or_insert` of the payload's info under its block hash, preserving an
existing entry. -/
def register_canonical_payload (m : List (Nat × PayloadInfo))
    (payload : ExecutionPayloadModel) (status : PayloadStatusTag) :
    List (Nat × PayloadInfo) :=
  if status = .invalid ∨ status = .invalidBlockHash then m
  else
    match lru_get m payload.block_hash with
    | some _ => m
    | none => (payload.block_hash, payload_info_of payload) :: m

/-- The canonical info map after a sequence of controller newPayload
observations. -/
def run_register_canonical (m : List (Nat × PayloadInfo))
    (calls : List (ExecutionPayloadModel × PayloadStatusTag)) :
    List (Nat × PayloadInfo) :=
  calls.foldl (fun acc c => register_canonical_payload acc c.1 c.2) m

/-- An observation populates the canonical info entry for hash `h` when its
payload has block hash `h` and its status is not Invalid/InvalidBlockHash. -/
def canonical_call_matches (h : Nat) (c : ExecutionPayloadModel × PayloadStatusTag) : Bool :=
  decide (c.1.block_hash = h) &&
    !(decide (c.2 = PayloadStatusTag.invalid) || decide (c.2 = PayloadStatusTag.invalidBlockHash))

/-! ## Helper lemmas -/

theorem lru_get_cons_self {κ υ : Type} [DecidableEq κ] (m : List (κ × υ)) (k : κ) (v : υ) :
    lru_get ((k, v) :: m) k = some v := by
  simp [lru_get, List.find?]

theorem lru_get_cons_ne {κ υ : Type} [DecidableEq κ] (m : List (κ × υ)) (k k₀ : κ) (v : υ)
    (h : k₀ ≠ k) : lru_get ((k₀, v) :: m) k = lru_get m k := by
  simp [lru_get, List.find?, h]

theorem lru_get_nil {κ υ : Type} [DecidableEq κ] (k : κ) :
    lru_get ([] : List (κ × υ)) k = none := rfl

theorem controller_fcu_step_definite (s : PayloadStatusV1) (hd : is_definite s = true)
    (ee : Option PayloadStatusV1) : controller_fcu_step (some s) ee = some s := by
  cases ee with
  | none => rfl
  | some new => simp [controller_fcu_step, hd]

theorem expected_base_fee_per_gas_eq (b u l : Nat) :
    expected_base_fee_per_gas b u l =
      if u = l / 2 then b
      else if u > l / 2 then b + max (b * (u - l / 2) / (l / 2) / 8) 1
      else b - b * (l / 2 - u) / (l / 2) / 8 := by
  simp [expected_base_fee_per_gas, ELASTICITY_MULTIPLIER, BASE_FEE_MAX_CHANGE_DENOMINATOR]

/-! ## Claim C1 — definite fcU cache entries are stable -/

/-- Claim C1: over any sequence of controller fcU calls for a fixed
`ForkchoiceState` key, once the cached status for that key is definite it
never changes again, so the entry visits at most one definite value:
`handle_controller_fcu` overwrites an existing entry only while it is
indefinite. -/
theorem claim1_controller_fcu_definite_stable (init : Option PayloadStatusV1)
    (calls₁ calls₂ : List (Option PayloadStatusV1)) (s : PayloadStatusV1)
    (h : controller_fcu_run init calls₁ = some s) (hd : is_definite s = true) :
    controller_fcu_run init (calls₁ ++ calls₂) = some s := by
  have hfix : ∀ calls, controller_fcu_run (some s) calls = some s := by
    intro calls
    induction calls with
    | nil => rfl
    | cons c rest ih =>
      simpa [controller_fcu_run, controller_fcu_step_definite s hd c]
        using ih
  calc controller_fcu_run init (calls₁ ++ calls₂)
      = controller_fcu_run (controller_fcu_run init calls₁) calls₂ :=
        List.foldl_append _ _ _ _
    _ = controller_fcu_run (some s) calls₂ := by rw [h]
    _ = some s := hfix calls₂

/-- Witness for C1: the controller first caches Accepted, then upgrades to
Valid; a later Syncing response leaves the definite entry unchanged. -/
theorem claim1_witness :
    controller_fcu_run none
        [some ⟨.accepted, none, none⟩, some ⟨.valid, some 7, none⟩,
         some ⟨.syncing, none, none⟩] =
      some ⟨.valid, some 7, none⟩ := by
  exact claim1_controller_fcu_definite_stable none
    [some ⟨.accepted, none, none⟩, some ⟨.valid, some 7, none⟩]
    [some ⟨.syncing, none, none⟩] ⟨.valid, some 7, none⟩ (by rfl) (by rfl)

/-! ## Claim C2 — recency gate and instant Syncing for old payloads -/

/-- Counterexample for C2: a non-recent payload whose `block_hash` field
disagrees with the recomputed hash hits the block-hash check and receives an
InvalidRequest error, not a synthetic Syncing status, even though its hash
misses the cache.  Cache: one entry with block number 200; cutoff 64 makes
the threshold 136, so block number 100 is not recent. -/
theorem claim2_counterexample :
    is_recent_payload [(1, ⟨⟨.valid, none, none⟩, 200⟩)] 64 100 = false ∧
    lru_get [(1, (⟨⟨.valid, none, none⟩, 200⟩ : NewPayloadCacheEntry))] 5 = none ∧
    (handle_new_payload [(1, ⟨⟨.valid, none, none⟩, 200⟩)] 64 2000
        ⟨5, 100, 77, true⟩).outcome ≠ .ok syncing_status := by
  refine ⟨by decide, by decide, by decide⟩

/-- Amended C2: a payload counts as recent iff its block number is at least
the maximum cached block number (0 for an empty cache) minus the cutoff,
with saturating subtraction; every non-recent payload is handled without a
single poll sleep, and on a cache miss the handler returns the synthetic
Syncing status immediately provided the payload passes the block-hash and
versioned-hashes checks (a payload failing either check receives an
InvalidRequest error instead, still without sleeping). -/
theorem claim2_nonrecent_no_sleep_syncing (cache : NewPayloadCache)
    (cutoff wait_millis : Nat) (r : NewPayloadRequestModel)
    (hnr : is_recent_payload cache cutoff r.block_number = false) :
    (is_recent_payload cache cutoff r.block_number = true ↔
      highest_cached_payload_number cache - cutoff ≤ r.block_number) ∧
    (cache = [] → highest_cached_payload_number cache = 0) ∧
    (handle_new_payload cache cutoff wait_millis r).sleeps = 0 ∧
    (r.computed_block_hash = r.block_hash → r.versioned_hashes_ok = true →
      lru_get cache r.block_hash = none →
      (handle_new_payload cache cutoff wait_millis r).outcome = .ok syncing_status) := by
  refine ⟨?_, ?_, ?_, ?_⟩
  · simp [is_recent_payload]
  · intro h
    simp [h, highest_cached_payload_number]
  · by_cases hhash : r.computed_block_hash = r.block_hash
    · simp only [handle_new_payload, hnr]
      rw [if_neg (by simp [hhash])]
      simp [new_payload_fallback]
      cases get_cached_payload_status cache r.block_hash false with
      | some s => simp
      | none => by_cases hv : r.versioned_hashes_ok <;> simp [hv]
    · simp [handle_new_payload, hhash]
  · intro hhash hv hmiss
    simp only [handle_new_payload, hnr]
    rw [if_neg (by simp [hhash])]
    simp [new_payload_fallback, get_cached_payload_status, hmiss, hv]

/-- Witness for the amended C2: with highest cached block 200 and cutoff 64
the recency threshold is 136, so block number 100 is not recent; the
handler performs zero poll sleeps and answers with the synthetic Syncing
status on the cache miss. -/
theorem claim2_witness :
    (handle_new_payload [(1, ⟨⟨.valid, none, none⟩, 200⟩)] 64 2000
        ⟨5, 100, 5, true⟩).sleeps = 0 ∧
    (handle_new_payload [(1, ⟨⟨.valid, none, none⟩, 200⟩)] 64 2000
        ⟨5, 100, 5, true⟩).outcome = .ok syncing_status := by
  have h := claim2_nonrecent_no_sleep_syncing [(1, ⟨⟨.valid, none, none⟩, 200⟩)] 64 2000
    ⟨5, 100, 5, true⟩ (by decide)
  exact ⟨h.2.2.1, h.2.2.2 (by decide) (by decide) (by decide)⟩

/-! ## Claim C3 — Loose fcU cache matching -/

/-- Claim C3: under Loose matching, `get_cached_fcu` returns a status
exactly when the first cached entry whose head matches exists, the justified
side cache contains the queried safe hash, the finalized side cache contains
the queried finalized hash, and that entry is definite whenever
`definite_only` holds; and when the queried safe hash was never recorded, a
follower fcU (without payload attributes) yields the synthetic Syncing
status with no payload id. -/
theorem get_cached_fcu_loose_none (c : FcuCaches) (fcu : ForkchoiceStateV1) (d : Bool)
    (hfm : first_head_match c.fcu_cache fcu.head_block_hash = none) :
    get_cached_fcu .Loose c fcu d = none := by
  unfold get_cached_fcu
  rw [hfm]

theorem get_cached_fcu_loose_some (c : FcuCaches) (fcu : ForkchoiceStateV1) (d : Bool)
    (existing : PayloadStatusV1)
    (hfm : first_head_match c.fcu_cache fcu.head_block_hash = some existing) :
    get_cached_fcu .Loose c fcu d =
      if (decide (fcu.safe_block_hash ∈ c.justified_block_cache) &&
          decide (fcu.finalized_block_hash ∈ c.finalized_block_cache)) &&
          (!d || is_definite existing) then some existing else none := by
  unfold get_cached_fcu side_cache_contains
  rw [hfm]

theorem claim3_loose_lookup_iff (c : FcuCaches) (fcu : ForkchoiceStateV1)
    (definite_only : Bool) (st : PayloadStatusV1) (attrs_map : AttributesMap) :
    (get_cached_fcu .Loose c fcu definite_only = some st ↔
      (first_head_match c.fcu_cache fcu.head_block_hash = some st ∧
       fcu.safe_block_hash ∈ c.justified_block_cache ∧
       fcu.finalized_block_hash ∈ c.finalized_block_cache ∧
       (definite_only = true → is_definite st = true))) ∧
    (fcu.safe_block_hash ∉ c.justified_block_cache →
      handle_fcu .Loose c attrs_map fcu none = ⟨syncing_status, none⟩) := by
  have hmain : ∀ (d : Bool) (st₀ : PayloadStatusV1),
      get_cached_fcu .Loose c fcu d = some st₀ ↔
        (first_head_match c.fcu_cache fcu.head_block_hash = some st₀ ∧
         fcu.safe_block_hash ∈ c.justified_block_cache ∧
         fcu.finalized_block_hash ∈ c.finalized_block_cache ∧
         (d = true → is_definite st₀ = true)) := by
    intro d st₀
    cases hfm : first_head_match c.fcu_cache fcu.head_block_hash with
    | none =>
      rw [get_cached_fcu_loose_none c fcu d hfm]
      constructor
      · intro h
        cases h
      · rintro ⟨h1, _⟩
        cases h1
    | some existing =>
      rw [get_cached_fcu_loose_some c fcu d existing hfm]
      constructor
      · intro h
        by_cases hcond : ((decide (fcu.safe_block_hash ∈ c.justified_block_cache) &&
            decide (fcu.finalized_block_hash ∈ c.finalized_block_cache)) &&
            (!d || is_definite existing)) = true
        · rw [if_pos hcond] at h
          injection h with h
          subst h
          have hjf := (Bool.and_eq_true _ _).mp ((Bool.and_eq_true _ _).mp hcond).1
          refine ⟨rfl, of_decide_eq_true hjf.1, of_decide_eq_true hjf.2, fun hd => ?_⟩
          have h2 := ((Bool.and_eq_true _ _).mp hcond).2
          rw [hd] at h2
          simpa using h2
        · rw [if_neg hcond] at h
          cases h
      · rintro ⟨h1, hj, hf, hd⟩
        injection h1 with h1
        subst h1
        have hcond : ((decide (fcu.safe_block_hash ∈ c.justified_block_cache) &&
            decide (fcu.finalized_block_hash ∈ c.finalized_block_cache)) &&
            (!d || is_definite existing)) = true := by
          cases d with
          | false => simp [hj, hf]
          | true => simp [hj, hf, hd rfl]
        rw [if_pos hcond]
  constructor
  · exact hmain definite_only st
  · intro hj
    have hnone : ∀ d : Bool, get_cached_fcu .Loose c fcu d = none := by
      intro d
      cases hx : get_cached_fcu .Loose c fcu d with
      | none => rfl
      | some s₀ =>
        exact absurd ((hmain d s₀).mp hx).2.1 hj
    simp [handle_fcu, hnone]

/-- Witness for C3 (scenario S2): the cache holds `{head 1, safe 2, final
3} -> Valid`, with 2 justified and 3 finalized; a follower queries `{head 1,
safe 9, final 3}` where 9 was never recorded, and receives Syncing with no
payload id. -/
theorem claim3_witness :
    handle_fcu .Loose
        ⟨[(⟨1, 2, 3⟩, ⟨.valid, some 1, none⟩)], [2], [3]⟩ [] ⟨1, 9, 3⟩ none =
      ⟨syncing_status, none⟩ := by
  exact (claim3_loose_lookup_iff ⟨[(⟨1, 2, 3⟩, ⟨.valid, some 1, none⟩)], [2], [3]⟩
    ⟨1, 9, 3⟩ true ⟨.valid, some 1, none⟩ []).2 (by decide)

/-! ## Claim C4 — EIP-1559 base fee matches the reference formula -/

/-- Claim C4: with `target = l / 2`, `expected_base_fee_per_gas b u l`
equals the EIP-1559 reference: `b` when `u = target`;
`b + max (1, b*(u-target)/target/8)` (hence strictly above `b`) when
`u > target`; and `b` minus `b*(target-u)/target/8` with saturating
subtraction (hence at most `b`, and never below 0 since the model is
`Nat`-valued) when `u < target`.  All divisions are `Nat` (round toward
zero) divisions.  The hypotheses `2 ≤ l`, `b * (u - l/2) < 2^256` and
`b + max 1 (b*(u-l/2)/(l/2)/8) < 2^256` confine the statement to the inputs
where the Rust `U256` arithmetic neither divides by zero nor overflows (the
library arithmetic is checked, so outside this domain the code panics
rather than returning a value). -/
theorem claim4_base_fee (b u l : Nat) (hl : 2 ≤ l)
    (hmul : b * (u - l / 2) < 2 ^ 256)
    (hadd : b + max 1 (b * (u - l / 2) / (l / 2) / 8) < 2 ^ 256) :
    (u = l / 2 → expected_base_fee_per_gas b u l = b) ∧
    (u > l / 2 →
      expected_base_fee_per_gas b u l = b + max 1 (b * (u - l / 2) / (l / 2) / 8) ∧
      b < expected_base_fee_per_gas b u l) ∧
    (u < l / 2 →
      expected_base_fee_per_gas b u l = b - b * (l / 2 - u) / (l / 2) / 8 ∧
      expected_base_fee_per_gas b u l ≤ b) := by
  rw [expected_base_fee_per_gas_eq]
  refine ⟨fun he => ?_, fun hgt => ?_, fun hlt => ?_⟩
  · rw [if_pos he]
  · have hne : ¬ u = l / 2 := Nat.ne_of_gt hgt
    rw [if_neg hne, if_pos hgt, Nat.max_comm]
    refine ⟨rfl, ?_⟩
    have h1 : 1 ≤ max 1 (b * (u - l / 2) / (l / 2) / 8) := le_max_left _ _
    omega
  · have hne : ¬ u = l / 2 := Nat.ne_of_lt hlt
    have hngt : ¬ u > l / 2 := by omega
    rw [if_neg hne, if_neg hngt]
    exact ⟨rfl, Nat.sub_le _ _⟩

/-- Witness for C4 at the concrete parent `(b, u, l) = (10^9, 2*10^7, 3*10^7)`
(gas target 1.5*10^7, used above target): result is `b + b*(u-t)/t/8`. -/
theorem claim4_witness :
    2 ≤ 30000000 ∧
    expected_base_fee_per_gas 1000000000 20000000 30000000 =
      1000000000 + max 1 (1000000000 * (20000000 - 30000000 / 2) / (30000000 / 2) / 8) := by
  refine ⟨by norm_num, ?_⟩
  exact ((claim4_base_fee 1000000000 20000000 30000000 (by norm_num) (by norm_num)
    (by norm_num)).2.1 (by norm_num)).1

/-! ## Claim C5 — attributes version is NOT selected per method version -/

/-- Counterexample for C5: `handle_controller_fcu` parses the payload
attributes of an `engine_forkchoiceUpdatedV1` request as V3 attributes, not
V1: only the V2 method name is distinguished (src/fcu.rs lines 25-47). -/
theorem claim5_counterexample :
    controller_fcu_attributes_version ENGINE_FORKCHOICE_UPDATED_V1 = .V3 ∧
    controller_fcu_attributes_version ENGINE_FORKCHOICE_UPDATED_V1 ≠ .V1 := by
  constructor
  · rfl
  · decide

/-- Amended C5: in `handle_controller_fcu`, a request whose method is
`engine_forkchoiceUpdatedV2` parses the optional second parameter as V2
payload attributes, and every other method — including V1 and V3 — parses it
as V3 payload attributes. -/
theorem claim5_attributes_version :
    controller_fcu_attributes_version ENGINE_FORKCHOICE_UPDATED_V1 = .V3 ∧
    controller_fcu_attributes_version ENGINE_FORKCHOICE_UPDATED_V2 = .V2 ∧
    controller_fcu_attributes_version ENGINE_FORKCHOICE_UPDATED_V3 = .V3 ∧
    ∀ m : String, m ≠ ENGINE_FORKCHOICE_UPDATED_V2 →
      controller_fcu_attributes_version m = .V3 := by
  refine ⟨rfl, rfl, rfl, fun m hm => ?_⟩
  simp [controller_fcu_attributes_version, hm]

/-- Witness for the amended C5 at the concrete method name
`engine_forkchoiceUpdatedV1`, which is not the V2 method name. -/
theorem claim5_witness :
    controller_fcu_attributes_version "engine_forkchoiceUpdatedV1" = .V3 :=
  claim5_attributes_version.2.2.2 "engine_forkchoiceUpdatedV1" (by decide)

/-! ## Claim C6 — block-hash mismatch handling in the client handler -/

/-- Counterexample for C6: for a payload whose `block_hash` field is 3 but
whose recomputed hash is 5, the error message is `incorrect block hash 3` —
it names only the payload's own `block_hash` field and does not mention the
computed hash; indeed the response is identical for a different computed
hash 7, so no rendering of the computed hash can occur in it. -/
theorem claim6_counterexample :
    (handle_new_payload [] 64 2000 ⟨3, 100, 5, true⟩).outcome =
      .err .InvalidRequest "incorrect block hash 3" ∧
    ¬ message_mentions "incorrect block hash 3" 5 ∧
    (handle_new_payload [] 64 2000 ⟨3, 100, 5, true⟩).outcome =
      (handle_new_payload [] 64 2000 ⟨3, 100, 7, true⟩).outcome := by
  refine ⟨by decide, ?_, by decide⟩
  simp only [message_mentions]
  decide

/-- Amended C6: for every client newPayload request whose recomputed block
hash differs from its `block_hash` field, the handler checks the hash before
any cache lookup (the outcome is the same for every cache contents), returns
a JSON-RPC error with code −32600 (InvalidRequest) whose message mentions
the payload's `block_hash` field (the computed hash appears only in logs),
performs no poll sleep, and leaves the newPayload cache unchanged. -/
theorem claim6_block_hash_mismatch (cache : NewPayloadCache) (cutoff wait_millis : Nat)
    (r : NewPayloadRequestModel) (h : r.computed_block_hash ≠ r.block_hash) :
    (handle_new_payload cache cutoff wait_millis r).outcome =
      .err .InvalidRequest ("incorrect block hash " ++ toString r.block_hash) ∧
    ErrorCode.InvalidRequest.toInt = -32600 ∧
    message_mentions ("incorrect block hash " ++ toString r.block_hash) r.block_hash ∧
    (handle_new_payload cache cutoff wait_millis r).sleeps = 0 ∧
    (handle_new_payload cache cutoff wait_millis r).cache_after = cache ∧
    ∀ cache₂ : NewPayloadCache,
      (handle_new_payload cache₂ cutoff wait_millis r).outcome =
        (handle_new_payload cache cutoff wait_millis r).outcome := by
  refine ⟨by simp [handle_new_payload, h], rfl, ?_, by simp [handle_new_payload, h],
    by simp [handle_new_payload, h], fun cache₂ => by simp [handle_new_payload, h]⟩
  exact ⟨("incorrect block hash ").data, [], by simp [String.data_append]⟩

/-- Witness for the amended C6 at the concrete mismatched request with
`block_hash` field 3 and recomputed hash 5 against a nonempty cache. -/
theorem claim6_witness :
    (handle_new_payload [(3, ⟨⟨.valid, none, none⟩, 7⟩)] 64 2000
        ⟨3, 7, 5, true⟩).outcome = .err .InvalidRequest "incorrect block hash 3" ∧
    (handle_new_payload [(3, ⟨⟨.valid, none, none⟩, 7⟩)] 64 2000
        ⟨3, 7, 5, true⟩).cache_after = [(3, ⟨⟨.valid, none, none⟩, 7⟩)] := by
  have h := claim6_block_hash_mismatch [(3, ⟨⟨.valid, none, none⟩, 7⟩)] 64 2000
    ⟨3, 7, 5, true⟩ (by decide)
  exact ⟨h.1, h.2.2.2.2.1⟩

/-! ## Claim C7 — dispatcher routing -/

theorem process_client_request_route_unrouted (m : String) (hm : m ∉ routed_methods) :
    process_client_request_route m = .unsupported_method := by
  simp only [routed_methods, List.mem_cons, List.not_mem_nil, or_false, not_or] at hm
  obtain ⟨h1, h2, h3, h4, h5, h6, h7, h8, h9, h10, h11, h12, h13, h14, h15, h16, h17,
    h18, h19⟩ := hm
  simp [process_client_request_route, h1, h2, h3, h4, h5, h6, h7, h8, h9, h10, h11, h12,
    h13, h14, h15, h16, h17, h18, h19]

theorem handle_controller_json_rpc_route_unrouted (m : String) (hm : m ∉ routed_methods) :
    handle_controller_json_rpc_route m = .unsupported_method := by
  simp only [routed_methods, List.mem_cons, List.not_mem_nil, or_false, not_or] at hm
  obtain ⟨h1, h2, h3, h4, h5, h6, h7, h8, h9, h10, h11, h12, h13, h14, h15, h16, h17,
    h18, h19⟩ := hm
  simp [handle_controller_json_rpc_route, h1, h2, h3, h4, h5, h6, h7, h8, h9, h10, h11,
    h12, h13, h14, h15, h16, h17, h18, h19]

/-- Counterexample for C7: `engine_newPayloadV4` is not in the routing
tables of src/main.rs — on both endpoints it is dispatched to
`unsupported_method` (MethodNotFound, −32601), not to a newPayload
handler. -/
theorem claim7_counterexample :
    process_client_request_route ENGINE_NEW_PAYLOAD_V4 = .unsupported_method ∧
    handle_controller_json_rpc_route ENGINE_NEW_PAYLOAD_V4 = .unsupported_method ∧
    process_client_request_route ENGINE_NEW_PAYLOAD_V4 ≠ .handle_new_payload ∧
    handle_controller_json_rpc_route ENGINE_NEW_PAYLOAD_V4 ≠
      .handle_controller_new_payload := by
  refine ⟨by decide, by decide, by decide, by decide⟩

/-- Amended C7: the dispatcher routes `engine_newPayloadV1` through
`engine_newPayloadV3` to the newPayload handlers (client variant on the
client endpoint, controller variant on the controller endpoint);
`engine_newPayloadV4` is not in the routing table, and every method outside
the table — V4 included — receives the MethodNotFound error, whose code is
−32601. -/
theorem claim7_routing :
    (∀ m, m ∈ [ENGINE_NEW_PAYLOAD_V1, ENGINE_NEW_PAYLOAD_V2, ENGINE_NEW_PAYLOAD_V3] →
      process_client_request_route m = .handle_new_payload ∧
      handle_controller_json_rpc_route m = .handle_controller_new_payload) ∧
    process_client_request_route ENGINE_NEW_PAYLOAD_V4 = .unsupported_method ∧
    handle_controller_json_rpc_route ENGINE_NEW_PAYLOAD_V4 = .unsupported_method ∧
    (∀ m, m ∉ routed_methods →
      process_client_request_route m = .unsupported_method ∧
      handle_controller_json_rpc_route m = .unsupported_method) ∧
    (unsupported_method_error ENGINE_NEW_PAYLOAD_V4).1.toInt = -32601 := by
  refine ⟨?_, by decide, by decide, fun m hm => ?_, by decide⟩
  · intro m hm
    simp only [List.mem_cons, List.not_mem_nil, or_false] at hm
    rcases hm with h | h | h <;> subst h <;> exact ⟨by decide, by decide⟩
  · exact ⟨process_client_request_route_unrouted m hm,
      handle_controller_json_rpc_route_unrouted m hm⟩

/-- Witness for the amended C7 at the concrete out-of-table method
`engine_getBlobsV1` and the in-table method `engine_newPayloadV2`. -/
theorem claim7_witness :
    process_client_request_route "engine_getBlobsV1" = .unsupported_method ∧
    process_client_request_route "engine_newPayloadV2" = .handle_new_payload := by
  refine ⟨(claim7_routing.2.2.2.1 "engine_getBlobsV1" (by decide)).1, ?_⟩
  exact (claim7_routing.1 "engine_newPayloadV2" (by decide)).1

/-! ## Claim C8 — register_attributes is idempotent per key -/

/-- Claim C8: if a `register_attributes` call for `(parent_hash,
attributes)` returned payload id `id` leaving the builder in state `s₁`,
then a later call with the same pair (while the mapping is still cached)
again returns `id` and leaves the state — counter, attributes map and
stored payloads included — exactly `s₁`: no new id is allocated and the
payload stored under `id` by the first call is unchanged. -/
theorem claim8_register_attributes_idempotent (env : BuilderEnv) (s : PayloadBuilderState)
    (parent_hash : Nat) (payload_attributes : PayloadAttributesModel) (id : Nat)
    (s₁ : PayloadBuilderState)
    (h : register_attributes env s parent_hash payload_attributes = (.ok id, s₁)) :
    register_attributes env s₁ parent_hash payload_attributes = (.ok id, s₁) := by
  unfold register_attributes at h
  split at h
  · exact absurd (congrArg Prod.fst h) (by simp)
  · rename_i slot hts
    split at h
    · rename_i id₀ hga
      have hid : id₀ = id := by simpa using congrArg Prod.fst h
      have hs : s = s₁ := by simpa using congrArg Prod.snd h
      subst hs
      subst hid
      unfold register_attributes
      simp only [hts, hga]
    · rename_i hga
      split at h
      · exact absurd (congrArg Prod.fst h) (by simp)
      · rename_i parent_info hpi
        split at h
        · exact absurd (congrArg Prod.fst h) (by simp)
        · rename_i payload hdp
          have hid : s.next_payload_id = id := by simpa using congrArg Prod.fst h
          have hs : s₁ = { s with
              payload_attributes :=
                ((parent_hash, payload_attributes), s.next_payload_id) :: s.payload_attributes
              payloads :=
                (s.next_payload_id,
                  { payload with
                    block_hash :=
                      env.compute_block_hash payload
                        payload_attributes.parent_beacon_block_root }) :: s.payloads
              next_payload_id := s.next_payload_id + 1 } := by
            simpa using (congrArg Prod.snd h).symm
          subst hs
          subst hid
          unfold register_attributes
          simp only [hts, lru_get_cons_self]

/-- Witness for C8: a concrete first call (Bellatrix fork, known parent,
valid timestamp) succeeds with id 0; the repeated call returns id 0 and the
identical state. -/
theorem claim8_witness :
    register_attributes
        ⟨0, 12, fun _ => .Bellatrix, fun _ _ => 42⟩
        (register_attributes ⟨0, 12, fun _ => .Bellatrix, fun _ _ => 42⟩
          ⟨0, [], [(1, ⟨100, 7, 1000000000, 15000000, 30000000⟩)], [], []⟩
          1 ⟨12, 9, 8, none, none⟩).2
        1 ⟨12, 9, 8, none, none⟩ =
      (.ok 0,
        (register_attributes ⟨0, 12, fun _ => .Bellatrix, fun _ _ => 42⟩
          ⟨0, [], [(1, ⟨100, 7, 1000000000, 15000000, 30000000⟩)], [], []⟩
          1 ⟨12, 9, 8, none, none⟩).2) := by
  exact claim8_register_attributes_idempotent
    ⟨0, 12, fun _ => .Bellatrix, fun _ _ => 42⟩
    ⟨0, [], [(1, ⟨100, 7, 1000000000, 15000000, 30000000⟩)], [], []⟩
    1 ⟨12, 9, 8, none, none⟩ 0 _ rfl

/-! ## Claim C10 — failed register_attributes calls leave the builder unchanged -/

/-- Claim C10: every `register_attributes` call that returns an error —
invalid timestamp, unknown parent, missing withdrawals, pre-Bellatrix fork
(or the unimplemented Electra branch, which panics before any mutation) —
leaves the builder state unchanged: `next_payload_id` is not incremented and
nothing is inserted into the attributes-to-id map or the payloads map, so
payload ids are consumed only by calls that successfully build and store a
payload. -/
theorem claim10_register_attributes_error_pure (env : BuilderEnv)
    (s : PayloadBuilderState) (parent_hash : Nat)
    (payload_attributes : PayloadAttributesModel) (e : BuildError)
    (s₁ : PayloadBuilderState)
    (h : register_attributes env s parent_hash payload_attributes = (.error e, s₁)) :
    s₁ = s ∧ s₁.next_payload_id = s.next_payload_id ∧
      s₁.payload_attributes = s.payload_attributes ∧ s₁.payloads = s.payloads := by
  have hs : s₁ = s := by
    unfold register_attributes at h
    split at h
    · simpa using (congrArg Prod.snd h).symm
    · split at h
      · exact absurd (congrArg Prod.fst h) (by simp)
      · split at h
        · simpa using (congrArg Prod.snd h).symm
        · split at h
          · simpa using (congrArg Prod.snd h).symm
          · exact absurd (congrArg Prod.fst h) (by simp)
  exact ⟨hs, by rw [hs], by rw [hs], by rw [hs]⟩

/-- Witness for C10: a call whose attributes' timestamp precedes the genesis
time fails with `invalidTimestamp` and leaves the concrete builder state
unchanged. -/
theorem claim10_witness :
    (register_attributes ⟨100, 12, fun _ => .Bellatrix, fun _ _ => 42⟩
        ⟨3, [], [], [], []⟩ 1 ⟨5, 9, 8, none, none⟩).2 = ⟨3, [], [], [], []⟩ := by
  exact (claim10_register_attributes_error_pure
    ⟨100, 12, fun _ => .Bellatrix, fun _ _ => 42⟩
    ⟨3, [], [], [], []⟩ 1 ⟨5, 9, 8, none, none⟩ .invalidTimestamp _ rfl).1

/-! ## Claim C9 — canonical payload info: first observation wins -/

theorem register_canonical_payload_preserves (m : List (Nat × PayloadInfo))
    (payload : ExecutionPayloadModel) (status : PayloadStatusTag) (h : Nat) (v : PayloadInfo)
    (hv : lru_get m h = some v) :
    lru_get (register_canonical_payload m payload status) h = some v := by
  unfold register_canonical_payload
  by_cases hinv : status = PayloadStatusTag.invalid ∨ status = PayloadStatusTag.invalidBlockHash
  · rw [if_pos hinv]
    exact hv
  · rw [if_neg hinv]
    cases hx : lru_get m payload.block_hash with
    | some _ => exact hv
    | none =>
      have hne : payload.block_hash ≠ h := by
        intro he
        rw [he, hv] at hx
        cases hx
      rw [lru_get_cons_ne _ _ _ _ hne]
      exact hv

theorem run_register_canonical_preserves (calls : List (ExecutionPayloadModel × PayloadStatusTag))
    (m : List (Nat × PayloadInfo)) (h : Nat) (v : PayloadInfo)
    (hv : lru_get m h = some v) :
    lru_get (run_register_canonical m calls) h = some v := by
  induction calls generalizing m with
  | nil => exact hv
  | cons c rest ih =>
    exact ih (register_canonical_payload m c.1 c.2)
      (register_canonical_payload_preserves m c.1 c.2 h v hv)

theorem run_register_canonical_first_wins
    (calls : List (ExecutionPayloadModel × PayloadStatusTag))
    (m : List (Nat × PayloadInfo)) (h : Nat) (hm : lru_get m h = none) :
    lru_get (run_register_canonical m calls) h =
      (calls.find? (canonical_call_matches h)).map (fun c => payload_info_of c.1) := by
  induction calls generalizing m with
  | nil => simpa [run_register_canonical] using hm
  | cons c rest ih =>
    have hstep : run_register_canonical m (c :: rest) =
        run_register_canonical (register_canonical_payload m c.1 c.2) rest := rfl
    by_cases hinv : c.2 = PayloadStatusTag.invalid ∨ c.2 = PayloadStatusTag.invalidBlockHash
    · have hreg : register_canonical_payload m c.1 c.2 = m := by
        unfold register_canonical_payload
        rw [if_pos hinv]
      have hfind : canonical_call_matches h c = false := by
        unfold canonical_call_matches
        rcases hinv with hi | hi <;> simp [hi]
      rw [hstep, hreg, List.find?_cons_of_neg _ (by simp [hfind])]
      exact ih m hm
    · by_cases hbh : c.1.block_hash = h
      · have hreg : register_canonical_payload m c.1 c.2 =
            (c.1.block_hash, payload_info_of c.1) :: m := by
          unfold register_canonical_payload
          rw [if_neg hinv, hbh, hm]
        have hfind : canonical_call_matches h c = true := by
          unfold canonical_call_matches
          simp only [not_or] at hinv
          simp [hbh, hinv.1, hinv.2]
        rw [hstep, hreg, List.find?_cons_of_pos _ hfind]
        have hget : lru_get ((c.1.block_hash, payload_info_of c.1) :: m) h =
            some (payload_info_of c.1) := by
          rw [hbh]
          exact lru_get_cons_self m h (payload_info_of c.1)
        simpa using run_register_canonical_preserves rest _ h (payload_info_of c.1) hget
      · have hreg : lru_get (register_canonical_payload m c.1 c.2) h = none := by
          unfold register_canonical_payload
          rw [if_neg hinv]
          cases hx : lru_get m c.1.block_hash with
          | some _ => exact hm
          | none =>
            rw [lru_get_cons_ne _ _ _ _ hbh]
            exact hm
        have hfind : canonical_call_matches h c = false := by
          unfold canonical_call_matches
          simp [hbh]
        rw [hstep, List.find?_cons_of_neg _ (by simp [hfind])]
        exact ih (register_canonical_payload m c.1 c.2) hreg

/-- Claim C9: `register_canonical_payload` is a no-op for Invalid and
InvalidBlockHash statuses — it never populates canonical info for such a
payload — and, starting from the empty map the builder is created with, the
canonical info stored under any block hash after a sequence of controller
newPayload observations is exactly the `(block_number, state_root,
base_fee_per_gas, gas_used, gas_limit)` record of the first observation of
that hash with status Valid, Accepted or Syncing; later calls for the same
hash do not change the stored record. -/
theorem claim9_canonical_info :
    (∀ (m : List (Nat × PayloadInfo)) (payload : ExecutionPayloadModel)
        (status : PayloadStatusTag),
      (status = PayloadStatusTag.invalid ∨ status = PayloadStatusTag.invalidBlockHash) →
      register_canonical_payload m payload status = m) ∧
    (∀ (calls : List (ExecutionPayloadModel × PayloadStatusTag)) (h : Nat),
      lru_get (run_register_canonical [] calls) h =
        (calls.find? (canonical_call_matches h)).map (fun c => payload_info_of c.1)) := by
  constructor
  · intro m payload status hinv
    unfold register_canonical_payload
    rw [if_pos hinv]
  · intro calls h
    exact run_register_canonical_first_wins calls [] h rfl

/-- Witness for C9: an Invalid observation stores nothing; a Syncing
observation of block hash 5 stores its record, and a later Valid replay of
the same hash with different field values does not change it. -/
theorem claim9_witness :
    register_canonical_payload []
        ⟨.Bellatrix, 0, 0, 0, 0, 0, 0, 50, 0, 0, 0, [], 0, 5, [], none, none, none⟩
        .invalid = [] ∧
    lru_get
        (run_register_canonical []
          [(⟨.Bellatrix, 0, 0, 11, 0, 0, 0, 50, 60, 70, 0, [], 80, 5, [], none, none, none⟩,
              .syncing),
           (⟨.Bellatrix, 0, 0, 99, 0, 0, 0, 51, 61, 71, 0, [], 81, 5, [], none, none, none⟩,
              .valid)]) 5 =
      some ⟨50, 11, 80, 70, 60⟩ := by
  constructor
  · exact claim9_canonical_info.1 []
      ⟨.Bellatrix, 0, 0, 0, 0, 0, 0, 50, 0, 0, 0, [], 0, 5, [], none, none, none⟩
      .invalid (Or.inl rfl)
  · rw [claim9_canonical_info.2]
    decide

end Eleel
